import Mathlib

/-!
Verification of the OpenThread MQTT-SN client specification against the
repository sources.  The repository provides `src/core/common/instance.cpp`
(the OpenThread `Instance` singleton lifecycle) and the public MQTT-SN API
header `include/openthread/mqttsn.h`.  The MQTT-SN client implementation
itself is declared by the header but its definition is not part of the
sources, so the client protocol engine (wire codec, transaction table,
client state machine, keepalive manager) is modelled from the specification
text, while `Instance` operations are embedded directly from `instance.cpp`.
-/

/-- OpenThread error codes used by the operations modelled here
(`OT_ERROR_NONE`, `OT_ERROR_INVALID_ARGS`, `OT_ERROR_INVALID_STATE`,
`OT_ERROR_NO_BUFS`, plus the already-running / not-running errors the spec
requires from `Start`/`Stop`). -/
inductive OtError where
  | none
  | invalidArgs
  | invalidState
  | noBufs
  | alreadyStarted
  | notStarted
  deriving DecidableEq

/-! ## Instance lifecycle, embedded from `src/core/common/instance.cpp`
(single-instance build: `OPENTHREAD_ENABLE_MULTIPLE_INSTANCES == 0`,
`OPENTHREAD_MTD || OPENTHREAD_FTD`). -/

/-- MLE device role (`OT_DEVICE_ROLE_*`), read by `Instance::ErasePersistentInfo`. -/
inductive DeviceRole where
  | disabled
  | detached
  | child
  | router
  | leader
  deriving DecidableEq

/-- State of the persistent settings store: before `Settings::Init`,
after `Settings::Init` (holding some stored data, abstracted as a `Nat`),
or wiped by `Settings::Wipe`. -/
inductive SettingsState where
  | uninit
  | stored (data : Nat)
  | wiped
  deriving DecidableEq

/-- `Settings::Wipe` erases all persistent content. -/
def SettingsState.wipe (_s : SettingsState) : SettingsState :=
  SettingsState.wiped

/-- The OpenThread `Instance` state: the fields of `ot::Instance` that the
claims touch.  Scan callbacks are nullable function pointers, embedded as
`Option` over an abstract callback identifier; contexts are nullable `void*`
pointers, embedded as `Option Nat`. -/
structure OtInstance where
  mIsInitialized : Bool
  mActiveScanCallback : Option Nat
  mActiveScanCallbackContext : Option Nat
  mEnergyScanCallback : Option Nat
  mEnergyScanCallbackContext : Option Nat
  settings : SettingsState
  mleRole : DeviceRole
  deriving DecidableEq

/-- Observable steps of `Instance::InitSingle`: running the placement-new
constructor `Instance::Instance()` and running `Instance::AfterInit()`. -/
inductive InitEvent where
  | ctorRun
  | afterInitRun
  deriving DecidableEq

/-- The constructor `Instance::Instance()`: scan callbacks and contexts are
initialised to `NULL` and `mIsInitialized` to `false`; the settings object is
constructed but not yet initialised, and the MLE role starts disabled. -/
def OtInstance.construct : OtInstance :=
  { mIsInitialized := false
    mActiveScanCallback := Option.none
    mActiveScanCallbackContext := Option.none
    mEnergyScanCallback := Option.none
    mEnergyScanCallbackContext := Option.none
    settings := SettingsState.uninit
    mleRole := DeviceRole.disabled }

/-- `Instance::AfterInit`: sets `mIsInitialized = true`, then runs
`Get<Settings>().Init()` and `Get<Mle::MleRouter>().Restore()` (restoring
datasets and network information; the restored settings content is abstracted
as stored data `0`). -/
def OtInstance.AfterInit (i : OtInstance) : OtInstance :=
  { i with mIsInitialized := true, settings := SettingsState.stored 0 }

/-- `Instance::InitSingle`: reads the raw-storage singleton; if it is already
initialised (`VerifyOrExit(instance->mIsInitialized == false)` fails) it jumps
to `exit` and returns the existing instance untouched; otherwise it
placement-news a fresh `Instance` and calls `AfterInit`.  The event list
records which of the constructor and `AfterInit` actually ran. -/
def OtInstance.InitSingle (g : OtInstance) : OtInstance × List InitEvent :=
  if g.mIsInitialized = false then
    (OtInstance.construct.AfterInit, [InitEvent.ctorRun, InitEvent.afterInitRun])
  else
    (g, [])

/-- `Instance::ErasePersistentInfo`: succeeds (wiping the settings) only when
the MLE role is `OT_DEVICE_ROLE_DISABLED`; otherwise
`VerifyOrExit(..., error = OT_ERROR_INVALID_STATE)` returns the error with the
settings untouched. -/
def OtInstance.ErasePersistentInfo (i : OtInstance) : OtError × OtInstance :=
  if i.mleRole = DeviceRole.disabled then
    (OtError.none, { i with settings := i.settings.wipe })
  else
    (OtError.invalidState, i)

/-- A callback invocation performed through a registered (non-`NULL`) scan
callback pointer, with the scan result and the stored context. -/
inductive ScanCall where
  | activeScan (cb : Nat) (result : Nat) (ctx : Option Nat)
  | energyScan (cb : Nat) (result : Nat) (ctx : Option Nat)
  deriving DecidableEq

/-- `Instance::RegisterActiveScanCallback`. -/
def OtInstance.RegisterActiveScanCallback (cb : Option Nat) (ctx : Option Nat)
    (i : OtInstance) : OtInstance :=
  { i with mActiveScanCallback := cb, mActiveScanCallbackContext := ctx }

/-- `Instance::InvokeActiveScanCallback`: calls the stored callback with the
result and stored context only when the callback pointer is not `NULL`. -/
def OtInstance.InvokeActiveScanCallback (result : Nat) (i : OtInstance) :
    List ScanCall :=
  match i.mActiveScanCallback with
  | Option.some cb => [ScanCall.activeScan cb result i.mActiveScanCallbackContext]
  | Option.none => []

/-- `Instance::RegisterEnergyScanCallback`. -/
def OtInstance.RegisterEnergyScanCallback (cb : Option Nat) (ctx : Option Nat)
    (i : OtInstance) : OtInstance :=
  { i with mEnergyScanCallback := cb, mEnergyScanCallbackContext := ctx }

/-- `Instance::InvokeEnergyScanCallback`: calls the stored callback with the
result and stored context only when the callback pointer is not `NULL`. -/
def OtInstance.InvokeEnergyScanCallback (result : Nat) (i : OtInstance) :
    List ScanCall :=
  match i.mEnergyScanCallback with
  | Option.some cb => [ScanCall.energyScan cb result i.mEnergyScanCallbackContext]
  | Option.none => []

/-! ## MQTT-SN service lifecycle (claim C7).

Modelled from the spec: the implementation of `otMqttsnStart` /
`otMqttsnStop` is not in the sources (only their declarations in
`include/openthread/mqttsn.h`); section 6 of the spec states they bring the
transport endpoint up/down and that idempotent misuse fails with an
already-running / not-running error. -/

/-- Modelled from the spec: the transport-endpoint lifecycle state behind
`otMqttsnStart`/`otMqttsnStop` (missing from the sources): whether the
service is running, and the listening port. -/
structure MqttsnService where
  running : Bool
  port : Nat
  deriving DecidableEq

/-- Modelled from the spec: `otMqttsnStart(port)` (implementation missing
from the sources).  Fails with the already-running error when the service is
already started, otherwise brings the endpoint up on the given port. -/
def mqttsnStart (port : Nat) (s : MqttsnService) : OtError × MqttsnService :=
  if s.running then
    (OtError.alreadyStarted, s)
  else
    (OtError.none, { running := true, port := port })

/-- Modelled from the spec: `otMqttsnStop()` (implementation missing from
the sources).  Fails with the not-running error when the service is not
started, otherwise brings the endpoint down. -/
def mqttsnStop (s : MqttsnService) : OtError × MqttsnService :=
  if s.running then
    (OtError.none, { s with running := false })
  else
    (OtError.notStarted, s)

/-! ## MQTT-SN wire model.

Modelled from the spec: the wire codec implementation is not in the sources;
only the API header is.  The message return-code, QoS and client-state
enumerations are embedded from `include/openthread/mqttsn.h`
(`otMqttsnReturnCode`, `otMqttsnQos`, `otMqttsnClientState`); the message
layouts follow spec sections 4.1 and 6. -/

/-- `otMqttsnReturnCode`: gateway codes 0..3 plus the local sentinel
`kCodeTimeout = -1`, which "is not returned by gateway". -/
inductive ReturnCode where
  | accepted
  | rejectedCongestion
  | rejectedTopicId
  | rejectedNotSupported
  | timeout
  deriving DecidableEq

/-- The numeric value of a return code as declared in `otMqttsnReturnCode`. -/
def ReturnCode.toInt : ReturnCode → Int
  | ReturnCode.accepted => 0
  | ReturnCode.rejectedCongestion => 1
  | ReturnCode.rejectedTopicId => 2
  | ReturnCode.rejectedNotSupported => 3
  | ReturnCode.timeout => -1

/-- The on-wire byte of a gateway return code (the timeout sentinel never
appears on the wire; it is mapped outside the gateway byte range). -/
def ReturnCode.toByte : ReturnCode → Nat
  | ReturnCode.accepted => 0
  | ReturnCode.rejectedCongestion => 1
  | ReturnCode.rejectedTopicId => 2
  | ReturnCode.rejectedNotSupported => 3
  | ReturnCode.timeout => 256

/-- Decode a CONNACK/REGACK/SUBACK/PUBACK return-code byte. -/
def rcOfByte (b : Nat) : Option ReturnCode :=
  if b = 0 then Option.some ReturnCode.accepted
  else if b = 1 then Option.some ReturnCode.rejectedCongestion
  else if b = 2 then Option.some ReturnCode.rejectedTopicId
  else if b = 3 then Option.some ReturnCode.rejectedNotSupported
  else Option.none

/-- `otMqttsnQos`: quality-of-service levels `kQos0`, `kQos1`, `kQos2` and
`kQosm1` (registration-free publish). -/
inductive Qos where
  | qos0
  | qos1
  | qos2
  | qosm1
  deriving DecidableEq

/-- QoS field bits (flag bits 5-6): `kQos0 = 0x0`, `kQos1 = 0x1`,
`kQos2 = 0x2`, `kQosm1 = 0x3`. -/
def Qos.toBits : Qos → Nat
  | Qos.qos0 => 0
  | Qos.qos1 => 1
  | Qos.qos2 => 2
  | Qos.qosm1 => 3

/-- Decode two QoS bits (total: every 2-bit value is a QoS level). -/
def qosOfBits (n : Nat) : Qos :=
  if n % 4 = 0 then Qos.qos0
  else if n % 4 = 1 then Qos.qos1
  else if n % 4 = 2 then Qos.qos2
  else Qos.qosm1

/-- `otMqttsnClientState`: the client lifecycle states. -/
inductive ClientState where
  | disconnected
  | active
  | asleep
  | awake
  | lost
  deriving DecidableEq

/-- Topic-id-type flag bits: normal topic name, predefined topic id, or
short topic name. -/
inductive TopicIdType where
  | normal
  | predefined
  | short
  deriving DecidableEq

/-- Topic-id-type field bits (flag bits 0-1). -/
def TopicIdType.toBits : TopicIdType → Nat
  | TopicIdType.normal => 0
  | TopicIdType.predefined => 1
  | TopicIdType.short => 2

/-- Decode the two topic-id-type bits; the value 3 is reserved. -/
def idtOfBits (n : Nat) : Option TopicIdType :=
  if n = 0 then Option.some TopicIdType.normal
  else if n = 1 then Option.some TopicIdType.predefined
  else if n = 2 then Option.some TopicIdType.short
  else Option.none

/-- The topic addressed by a SUBSCRIBE message: a long topic name, a 2-byte
short name encoded directly in the topic-id field, or a predefined topic id. -/
inductive TopicTarget where
  | name (n : List Nat)
  | shortName (a b : Nat)
  | predefinedId (id : Nat)
  deriving DecidableEq

/-- Modelled from the spec: the representable MQTT-SN messages of every
supported message type (spec 4.1 and 6); strings and payloads are byte lists.
The codec implementation is missing from the sources. -/
inductive Message where
  | connect (will cleanSession : Bool) (keepAlive : Nat) (clientId : List Nat)
  | connack (code : ReturnCode)
  | willtopicreq
  | willtopic (qos : Qos) (name : List Nat)
  | willmsgreq
  | willmsg (data : List Nat)
  | register (topicId msgId : Nat) (name : List Nat)
  | regack (topicId msgId : Nat) (code : ReturnCode)
  | publish (qos : Qos) (idType : TopicIdType) (topicId msgId : Nat) (data : List Nat)
  | puback (topicId msgId : Nat) (code : ReturnCode)
  | subscribe (qos : Qos) (msgId : Nat) (target : TopicTarget)
  | suback (qos : Qos) (topicId msgId : Nat) (code : ReturnCode)
  | pingreq
  | pingresp
  | disconnect (duration : Option Nat)
  deriving DecidableEq

/-- Big-endian 16-bit field: two bytes, most significant first. -/
def byte16 (n : Nat) : List Nat :=
  [n / 256, n % 256]

/-- CONNECT flag byte: will flag is bit 3, clean-session flag is bit 2. -/
def connectFlags (will cleanSession : Bool) : Nat :=
  (if will then 8 else 0) + (if cleanSession then 4 else 0)

/-- Flag byte carrying a QoS (bits 5-6) and a topic-id type (bits 0-1). -/
def flagsByte (q : Qos) (idt : TopicIdType) : Nat :=
  q.toBits * 32 + idt.toBits

/-- Test bit `k` of flag byte `f`. -/
def flagBit (f k : Nat) : Bool :=
  f / 2 ^ k % 2 = 1

/-- Modelled from the spec: the type-specific content of each message
(1-byte type identifier followed by the type-specific fields of spec
section 6, multi-byte integers big-endian); the codec implementation is
missing from the sources. -/
def encodeContent : Message → List Nat
  | Message.connect will clean ka cid => [4, connectFlags will clean, 1] ++ byte16 ka ++ cid
  | Message.connack code => [5, code.toByte]
  | Message.willtopicreq => [6]
  | Message.willtopic q name => [7, q.toBits * 32] ++ name
  | Message.willmsgreq => [8]
  | Message.willmsg data => 9 :: data
  | Message.register tid mid name => [10] ++ byte16 tid ++ byte16 mid ++ name
  | Message.regack tid mid code => [11] ++ byte16 tid ++ byte16 mid ++ [code.toByte]
  | Message.publish q idt tid mid data =>
      [12, flagsByte q idt] ++ byte16 tid ++ byte16 mid ++ data
  | Message.puback tid mid code => [13] ++ byte16 tid ++ byte16 mid ++ [code.toByte]
  | Message.subscribe q mid target =>
      match target with
      | TopicTarget.name n =>
          [18, flagsByte q TopicIdType.normal] ++ byte16 mid ++ n
      | TopicTarget.shortName a b =>
          [18, flagsByte q TopicIdType.short] ++ byte16 mid ++ [a, b]
      | TopicTarget.predefinedId tid =>
          [18, flagsByte q TopicIdType.predefined] ++ byte16 mid ++ byte16 tid
  | Message.suback q tid mid code =>
      [19, q.toBits * 32] ++ byte16 tid ++ byte16 mid ++ [code.toByte]
  | Message.pingreq => [22]
  | Message.pingresp => [23]
  | Message.disconnect Option.none => [24]
  | Message.disconnect (Option.some d) => 24 :: byte16 d

/-- Modelled from the spec: message framing — a 1-byte total length when the
message fits in 255 bytes, otherwise the 3-byte extended form `0x01` followed
by a big-endian 16-bit total length; the total length covers the length field
itself. -/
def encodeFrame (content : List Nat) : List Nat :=
  if content.length + 1 < 256 then
    (content.length + 1) :: content
  else
    1 :: byte16 (content.length + 3) ++ content

/-- Modelled from the spec: `Encode(message) -> bytes` (implementation
missing from the sources). -/
def encode (m : Message) : List Nat :=
  encodeFrame (encodeContent m)

/-- Parse the length field and check that the declared length matches the
buffer size, returning the content after the length field; spec 4.1 requires
rejecting messages whose declared length does not match the buffer. -/
def decodeFrame (bytes : List Nat) : Option (List Nat) :=
  match bytes with
  | [] => Option.none
  | b :: rest =>
    if b = 1 then
      match rest with
      | hi :: lo :: rest2 =>
          if hi * 256 + lo = rest2.length + 3 then Option.some rest2 else Option.none
      | _ => Option.none
    else if b = rest.length + 1 then Option.some rest else Option.none

/-- Decode a CONNECT body: flags, protocol id (must be 1), keepalive,
client id. -/
def decodeConnect (rest : List Nat) : Option Message :=
  match rest with
  | flags :: pid :: hi :: lo :: cid =>
      if pid = 1 then
        Option.some (Message.connect (flagBit flags 3) (flagBit flags 2) (hi * 256 + lo) cid)
      else Option.none
  | _ => Option.none

/-- Decode a CONNACK body: a single return-code byte. -/
def decodeConnack (rest : List Nat) : Option Message :=
  match rest with
  | [code] => (rcOfByte code).map Message.connack
  | _ => Option.none

/-- Decode a WILLTOPIC body: flags then the will topic name. -/
def decodeWilltopic (rest : List Nat) : Option Message :=
  match rest with
  | flags :: name => Option.some (Message.willtopic (qosOfBits (flags / 32)) name)
  | _ => Option.none

/-- Decode a REGISTER body: topic id, message id, topic name. -/
def decodeRegister (rest : List Nat) : Option Message :=
  match rest with
  | hi1 :: lo1 :: hi2 :: lo2 :: name =>
      Option.some (Message.register (hi1 * 256 + lo1) (hi2 * 256 + lo2) name)
  | _ => Option.none

/-- Decode a REGACK body: topic id, message id, return code. -/
def decodeRegack (rest : List Nat) : Option Message :=
  match rest with
  | [hi1, lo1, hi2, lo2, code] =>
      (rcOfByte code).map (Message.regack (hi1 * 256 + lo1) (hi2 * 256 + lo2))
  | _ => Option.none

/-- Decode a PUBLISH body: flags, topic id, message id, payload. -/
def decodePublish (rest : List Nat) : Option Message :=
  match rest with
  | flags :: hi1 :: lo1 :: hi2 :: lo2 :: data =>
      (idtOfBits (flags % 4)).map (fun idt =>
        Message.publish (qosOfBits (flags / 32)) idt (hi1 * 256 + lo1)
          (hi2 * 256 + lo2) data)
  | _ => Option.none

/-- Decode a PUBACK body: topic id, message id, return code. -/
def decodePuback (rest : List Nat) : Option Message :=
  match rest with
  | [hi1, lo1, hi2, lo2, code] =>
      (rcOfByte code).map (Message.puback (hi1 * 256 + lo1) (hi2 * 256 + lo2))
  | _ => Option.none

/-- Decode a SUBSCRIBE body: flags, message id, then (per the topic-id-type
bits) the topic name, the 2-byte short name, or the predefined topic id. -/
def decodeSubscribe (rest : List Nat) : Option Message :=
  match rest with
  | flags :: hi :: lo :: tail =>
      match idtOfBits (flags % 4) with
      | Option.some TopicIdType.normal =>
          Option.some (Message.subscribe (qosOfBits (flags / 32)) (hi * 256 + lo)
            (TopicTarget.name tail))
      | Option.some TopicIdType.short =>
          match tail with
          | [a, b] =>
              Option.some (Message.subscribe (qosOfBits (flags / 32)) (hi * 256 + lo)
                (TopicTarget.shortName a b))
          | _ => Option.none
      | Option.some TopicIdType.predefined =>
          match tail with
          | [h1, l1] =>
              Option.some (Message.subscribe (qosOfBits (flags / 32)) (hi * 256 + lo)
                (TopicTarget.predefinedId (h1 * 256 + l1)))
          | _ => Option.none
      | Option.none => Option.none
  | _ => Option.none

/-- Decode a SUBACK body: flags, topic id, message id, return code. -/
def decodeSuback (rest : List Nat) : Option Message :=
  match rest with
  | [flags, hi1, lo1, hi2, lo2, code] =>
      (rcOfByte code).map (Message.suback (qosOfBits (flags / 32)) (hi1 * 256 + lo1)
        (hi2 * 256 + lo2))
  | _ => Option.none

/-- Decode a DISCONNECT body: either empty or a 2-byte sleep duration. -/
def decodeDisconnect (rest : List Nat) : Option Message :=
  match rest with
  | [] => Option.some (Message.disconnect Option.none)
  | [hi, lo] => Option.some (Message.disconnect (Option.some (hi * 256 + lo)))
  | _ => Option.none

/-- Decode the content (after the length field) by its 1-byte type
identifier.  Unknown type identifiers yield no message (the receive path
ignores them). -/
def decodeContent (l : List Nat) : Option Message :=
  match l with
  | [] => Option.none
  | t :: rest =>
    if t = 4 then decodeConnect rest
    else if t = 5 then decodeConnack rest
    else if t = 6 then (match rest with | [] => Option.some Message.willtopicreq | _ => Option.none)
    else if t = 7 then decodeWilltopic rest
    else if t = 8 then (match rest with | [] => Option.some Message.willmsgreq | _ => Option.none)
    else if t = 9 then Option.some (Message.willmsg rest)
    else if t = 10 then decodeRegister rest
    else if t = 11 then decodeRegack rest
    else if t = 12 then decodePublish rest
    else if t = 13 then decodePuback rest
    else if t = 18 then decodeSubscribe rest
    else if t = 19 then decodeSuback rest
    else if t = 22 then (match rest with | [] => Option.some Message.pingreq | _ => Option.none)
    else if t = 23 then (match rest with | [] => Option.some Message.pingresp | _ => Option.none)
    else if t = 24 then decodeDisconnect rest
    else Option.none

/-- Modelled from the spec: `Decode(bytes) -> message | DecodeError`
(implementation missing from the sources). -/
def decode (bytes : List Nat) : Option Message :=
  (decodeFrame bytes).bind decodeContent

/-- All elements are valid bytes. -/
def bytesOk (l : List Nat) : Bool :=
  l.all (fun b => b < 256)

/-- A return code that can appear on the wire (the `kCodeTimeout` sentinel
is never returned by the gateway). -/
def wireCode (c : ReturnCode) : Bool :=
  c ≠ ReturnCode.timeout

/-- Modelled from the spec: a message is representable when its numeric
fields fit their 16-bit wire fields, its strings are byte strings, its
return code is a gateway code, and its total encoded length fits the
extended length field. -/
def representable (m : Message) : Bool :=
  ((encodeContent m).length + 3 < 65536) &&
  match m with
  | Message.connect _ _ ka cid => ka < 65536 && bytesOk cid
  | Message.connack code => wireCode code
  | Message.willtopicreq => true
  | Message.willtopic _ name => bytesOk name
  | Message.willmsgreq => true
  | Message.willmsg data => bytesOk data
  | Message.register tid mid name => tid < 65536 && mid < 65536 && bytesOk name
  | Message.regack tid mid code => tid < 65536 && mid < 65536 && wireCode code
  | Message.publish _ _ tid mid data =>
      tid < 65536 && mid < 65536 && bytesOk data
  | Message.puback tid mid code => tid < 65536 && mid < 65536 && wireCode code
  | Message.subscribe _ mid target =>
      mid < 65536 &&
      (match target with
       | TopicTarget.name n => bytesOk n
       | TopicTarget.shortName a b => a < 256 && b < 256
       | TopicTarget.predefinedId tid => tid < 65536)
  | Message.suback _ tid mid code => tid < 65536 && mid < 65536 && wireCode code
  | Message.pingreq => true
  | Message.pingresp => true
  | Message.disconnect Option.none => true
  | Message.disconnect (Option.some d) => d < 65536

/-! ## Transaction table.

Modelled from the spec (section 4.4): the transaction-table implementation
is missing from the sources.  It tracks in-flight CONNECT / REGISTER /
SUBSCRIBE requests by message identifier, with retry count, deadline and the
exact bytes last transmitted. -/

/-- The kind of a pending transaction. -/
inductive TxKind where
  | connectK
  | registerK
  | subscribeK
  deriving DecidableEq

/-- One pending request awaiting gateway acknowledgment (spec section 3). -/
structure Transaction where
  messageId : Nat
  kind : TxKind
  retriesLeft : Nat
  deadline : Nat
  payload : List Nat
  deriving DecidableEq

/-- Modelled from the spec: the implementation-defined build-time capacity of
the transaction table. -/
def tableCapacity : Nat := 8

/-- The transaction table: the pending entries and the 16-bit message-id
allocation counter. -/
structure TxTable where
  txs : List Transaction
  nextMessageId : Nat
  deriving DecidableEq

/-- The empty transaction table. -/
def emptyTable : TxTable :=
  { txs := [], nextMessageId := 1 }

/-- The message id the next insertion would allocate: the counter value,
skipping zero. -/
def allocId (t : TxTable) : Nat :=
  if t.nextMessageId = 0 then 1 else t.nextMessageId

/-- Modelled from the spec: `Insert` (spec section 4.4).  Fails closed with a
resource-exhaustion result (`Option.none`, table unchanged) when the table is
at capacity or when the allocated message id collides with a still-pending
id; otherwise allocates the id, stores the payload built from it, and bumps
the 16-bit counter with wraparound. -/
def insertTx (kind : TxKind) (mkPayload : Nat → List Nat)
    (now rtTimeout rtCount : Nat) (t : TxTable) : Option Nat × TxTable :=
  if tableCapacity ≤ t.txs.length then
    (Option.none, t)
  else
    let mid := allocId t
    if t.txs.any (fun tx => tx.messageId = mid) then
      (Option.none, t)
    else
      (Option.some mid,
       { txs := t.txs ++ [{ messageId := mid, kind := kind, retriesLeft := rtCount,
                            deadline := now + rtTimeout, payload := mkPayload mid }],
         nextMessageId := (mid + 1) % 65536 })

/-- Modelled from the spec: `Resolve(messageId)` removes (and returns) the
matching transaction. -/
def resolveTx (mid : Nat) (t : TxTable) : Option Transaction × TxTable :=
  (t.txs.find? (fun tx => tx.messageId = mid),
   { t with txs := t.txs.filter (fun tx => tx.messageId != mid) })

/-- Observable transport / callback actions of the periodic tick and of the
keepalive manager: a retransmission of the stored payload, a timeout
callback, or a connection-lost force-resolution. -/
inductive TickEvent where
  | retransmit (messageId : Nat) (payload : List Nat)
  | timedOut (messageId : Nat)
  | connectionLost (messageId : Nat)
  deriving DecidableEq

/-- Modelled from the spec: the per-transaction step of `Tick(now)` (spec
section 4.4).  A transaction whose deadline has not passed is untouched;
otherwise, with retries left, it retransmits the stored payload unchanged,
decrements, and advances the deadline; with no retries left it is removed
and its callback is invoked with the timeout return code. -/
def tickTx (now rtTimeout : Nat) (tx : Transaction) :
    Option Transaction × List TickEvent :=
  if tx.deadline ≤ now then
    if 0 < tx.retriesLeft then
      (Option.some { tx with retriesLeft := tx.retriesLeft - 1,
                             deadline := now + rtTimeout },
       [TickEvent.retransmit tx.messageId tx.payload])
    else
      (Option.none, [TickEvent.timedOut tx.messageId])
  else
    (Option.some tx, [])

/-- Modelled from the spec: `Tick(now)` over the whole table. -/
def tickTable (now rtTimeout : Nat) (t : TxTable) : TxTable × List TickEvent :=
  ({ t with txs := t.txs.filterMap (fun tx => (tickTx now rtTimeout tx).1) },
   (t.txs.map (fun tx => (tickTx now rtTimeout tx).2)).flatten)

/-- Tables reachable from the empty table through the table operations. -/
inductive ReachableTable : TxTable → Prop where
  | empty : ReachableTable emptyTable
  | insert (kind : TxKind) (mkPayload : Nat → List Nat) (now rtTimeout rtCount : Nat)
      (t : TxTable) : ReachableTable t →
      ReachableTable (insertTx kind mkPayload now rtTimeout rtCount t).2
  | resolve (mid : Nat) (t : TxTable) : ReachableTable t →
      ReachableTable (resolveTx mid t).2
  | tick (now rtTimeout : Nat) (t : TxTable) : ReachableTable t →
      ReachableTable (tickTable now rtTimeout t).1

/-- The table invariant: pairwise-distinct message ids, bounded size, ids in
the nonzero 16-bit range, and a 16-bit allocation counter. -/
def TableInv (t : TxTable) : Prop :=
  (t.txs.map fun tx => tx.messageId).Nodup ∧
  t.txs.length ≤ tableCapacity ∧
  (∀ tx ∈ t.txs, tx.messageId ≠ 0 ∧ tx.messageId < 65536) ∧
  t.nextMessageId < 65536

/-- A run of periodic ticks at the given times. -/
def runTicks (T : Nat) : List Nat → TxTable → TxTable × List TickEvent
  | [], t => (t, [])
  | now :: rest, t =>
      let r1 := tickTable now T t
      let r2 := runTicks T rest r1.1
      (r2.1, r1.2 ++ r2.2)

/-- Tick times `t0 + T, t0 + 2T, ...`: the successive retransmission
deadlines of a transaction created at time `t0`. -/
def tickSchedule (t0 T : Nat) : Nat → List Nat
  | 0 => []
  | m + 1 => (t0 + T) :: tickSchedule (t0 + T) T m

/-! ## Client state machine and keepalive manager.

Modelled from the spec (sections 4.3 and 4.5): the client implementation is
missing from the sources; the API surface is `include/openthread/mqttsn.h`. -/

/-- `otMqttsnConfig`: the connection parameters (the gateway IPv6 address is
abstracted as a number; the client id string is a byte list). -/
structure ClientConfig where
  mAddress : Nat
  mPort : Nat
  mClientId : List Nat
  mKeepAlive : Nat
  mCleanSession : Bool
  mRetransmissionTimeout : Nat
  mRetransmissionCount : Nat
  deriving DecidableEq

/-- Modelled from the spec: the largest accepted client id (the spec rejects
"empty/oversized" client ids; the MQTT-SN client-id field bound is used). -/
def maxClientIdLength : Nat := 23

/-- Modelled from the spec: call-time validation of connection parameters
(`OT_ERROR_INVALID_ARGS` on an empty or oversized client id). -/
def validConfig (cfg : ClientConfig) : Bool :=
  decide (0 < cfg.mClientId.length) &&
  decide (cfg.mClientId.length ≤ maxClientIdLength) &&
  bytesOk cfg.mClientId

/-- The MQTT-SN client session: lifecycle state, configuration, the pending
CONNECT flag (at most one CONNECT is pending, issuable only from
Disconnected), the transaction table, and the time of the last traffic
exchanged (for the keepalive manager). -/
structure Client where
  state : ClientState
  config : ClientConfig
  connectPending : Bool
  table : TxTable
  lastTraffic : Nat
  deriving DecidableEq

/-- An invocation of the registered connected-handler
(`otMqttsnConnectedHandler`) with a CONNACK return code, or with
`kCodeTimeout` when connection establishment timed out. -/
inductive ConnEvent where
  | connected (code : ReturnCode)
  deriving DecidableEq

/-- Modelled from the spec: `otMqttsnConnect` (implementation missing from
the sources).  Valid only from Disconnected (`OT_ERROR_INVALID_STATE`
otherwise), validates the parameters (`OT_ERROR_INVALID_ARGS`), then queues
the CONNECT message and records the pending connect. -/
def clientConnect (cfg : ClientConfig) (c : Client) :
    OtError × Client × List Message :=
  if c.state = ClientState.disconnected then
    if validConfig cfg then
      (OtError.none,
       { c with config := cfg, connectPending := true },
       [Message.connect false cfg.mCleanSession cfg.mKeepAlive cfg.mClientId])
    else
      (OtError.invalidArgs, c, [])
  else
    (OtError.invalidState, c, [])

/-- Modelled from the spec: CONNACK handling (spec section 4.3).  A CONNACK
resolves the pending connect: the accepted code moves the client to Active,
any other code leaves the state as it was (Disconnected); the
connected-handler observes the code exactly once.  A CONNACK with no pending
connect is discarded. -/
def handleConnack (code : ReturnCode) (c : Client) : Client × List ConnEvent :=
  if c.connectPending then
    (if code = ReturnCode.accepted then
       { c with state := ClientState.active, connectPending := false }
     else
       { c with connectPending := false },
     [ConnEvent.connected code])
  else
    (c, [])

/-- Modelled from the spec: expiry of the retry budget of a pending connect;
the connected-handler observes `kCodeTimeout` and the client stays in its
(Disconnected) state. -/
def connectTimeout (c : Client) : Client × List ConnEvent :=
  if c.connectPending then
    ({ c with connectPending := false }, [ConnEvent.connected ReturnCode.timeout])
  else
    (c, [])

/-- Modelled from the spec: `otMqttsnSubscribe` by long topic name
(implementation missing from the sources).  Only Active accepts it; the
state check precedes argument validation and message-id allocation, so a
call in any other state consumes no message id and sends nothing. -/
def clientSubscribe (name : List Nat) (q : Qos) (now : Nat) (c : Client) :
    OtError × Client × List Message :=
  if c.state = ClientState.active then
    if decide (0 < name.length) && bytesOk name then
      let r := insertTx TxKind.subscribeK
        (fun mid => encode (Message.subscribe q mid (TopicTarget.name name)))
        now c.config.mRetransmissionTimeout c.config.mRetransmissionCount c.table
      match r.1 with
      | Option.some mid =>
          (OtError.none, { c with table := r.2 },
           [Message.subscribe q mid (TopicTarget.name name)])
      | Option.none => (OtError.noBufs, c, [])
    else
      (OtError.invalidArgs, c, [])
  else
    (OtError.invalidState, c, [])

/-- Modelled from the spec: `otMqttsnRegister` (implementation missing from
the sources).  Only Active accepts it (state checked first); the REGISTER
message carries topic id 0 and the allocated message id. -/
def clientRegister (name : List Nat) (now : Nat) (c : Client) :
    OtError × Client × List Message :=
  if c.state = ClientState.active then
    if decide (0 < name.length) && bytesOk name then
      let r := insertTx TxKind.registerK
        (fun mid => encode (Message.register 0 mid name))
        now c.config.mRetransmissionTimeout c.config.mRetransmissionCount c.table
      match r.1 with
      | Option.some mid =>
          (OtError.none, { c with table := r.2 }, [Message.register 0 mid name])
      | Option.none => (OtError.noBufs, c, [])
    else
      (OtError.invalidArgs, c, [])
  else
    (OtError.invalidState, c, [])

/-- The cumulative no-traffic bound of the keepalive manager:
`keepalive period × (retransmission count + 1)`. -/
def keepaliveLimit (c : Client) : Nat :=
  c.config.mKeepAlive * (c.config.mRetransmissionCount + 1)

/-- Modelled from the spec: the keepalive manager step (spec section 4.5).
While Active/Asleep/Awake: if no traffic was exchanged for the cumulative
bound, the session transitions to Lost and every pending transaction is
force-resolved with the connection-lost outcome; otherwise, after one
keepalive period of silence a PINGREQ is sent. -/
def checkKeepalive (now : Nat) (c : Client) :
    Client × List Message × List TickEvent :=
  if c.state = ClientState.active ∨ c.state = ClientState.asleep ∨
     c.state = ClientState.awake then
    if c.lastTraffic + keepaliveLimit c ≤ now then
      ({ c with state := ClientState.lost, table := { c.table with txs := [] } },
       [], c.table.txs.map (fun tx => TickEvent.connectionLost tx.messageId))
    else if c.lastTraffic + c.config.mKeepAlive ≤ now then
      (c, [Message.pingreq], [])
    else
      (c, [], [])
  else
    (c, [], [])

/-! ## Theorems. -/

/-- Claim C8: `Instance::InitSingle` is idempotent — when the singleton is
already initialised (`mIsInitialized` is true) it returns the same instance
with all state unchanged, and neither the constructor nor `AfterInit` runs
(the event list is empty). -/
theorem initSingle_idempotent (g : OtInstance) (h : g.mIsInitialized = true) :
    g.InitSingle = (g, []) := by
  simp [OtInstance.InitSingle, h]

/-- Witness for claim C8 at a concrete already-initialised instance. -/
theorem initSingle_idempotent_witness :
    (OtInstance.mk true (Option.some 7) (Option.some 3) Option.none Option.none
        (SettingsState.stored 4) DeviceRole.router).mIsInitialized = true ∧
    (OtInstance.mk true (Option.some 7) (Option.some 3) Option.none Option.none
        (SettingsState.stored 4) DeviceRole.router).InitSingle =
      (OtInstance.mk true (Option.some 7) (Option.some 3) Option.none Option.none
        (SettingsState.stored 4) DeviceRole.router, []) :=
  ⟨rfl, initSingle_idempotent _ rfl⟩

/-- Claim C9: `Instance::ErasePersistentInfo` wipes the persistent settings
and returns `OT_ERROR_NONE` exactly when the MLE role is disabled; for every
other role it returns `OT_ERROR_INVALID_STATE` and leaves the whole instance
(and in particular the settings) unchanged. -/
theorem erasePersistentInfo_role_guard (i : OtInstance) :
    (i.mleRole = DeviceRole.disabled →
      i.ErasePersistentInfo =
        (OtError.none, { i with settings := SettingsState.wiped })) ∧
    (i.mleRole ≠ DeviceRole.disabled →
      i.ErasePersistentInfo = (OtError.invalidState, i)) := by
  constructor
  · intro h
    simp [OtInstance.ErasePersistentInfo, h, SettingsState.wipe]
  · intro h
    simp [OtInstance.ErasePersistentInfo, h]

/-- Witness for claim C9: the disabled role wipes, a router role fails with
the state error and changes nothing. -/
theorem erasePersistentInfo_role_guard_witness :
    (OtInstance.mk true Option.none Option.none Option.none Option.none
        (SettingsState.stored 4) DeviceRole.disabled).ErasePersistentInfo =
      (OtError.none,
       OtInstance.mk true Option.none Option.none Option.none Option.none
         SettingsState.wiped DeviceRole.disabled) ∧
    (OtInstance.mk true Option.none Option.none Option.none Option.none
        (SettingsState.stored 4) DeviceRole.router).ErasePersistentInfo =
      (OtError.invalidState,
       OtInstance.mk true Option.none Option.none Option.none Option.none
         (SettingsState.stored 4) DeviceRole.router) :=
  ⟨(erasePersistentInfo_role_guard _).1 rfl,
   (erasePersistentInfo_role_guard _).2 (by decide)⟩

/-- Claim C10: `Instance::InvokeActiveScanCallback` and
`Instance::InvokeEnergyScanCallback` never call through a null function
pointer — with no registered callback each invocation performs no call at
all. -/
theorem invoke_scan_callbacks_null_noop (i : OtInstance) (result : Nat) :
    (i.mActiveScanCallback = Option.none →
      i.InvokeActiveScanCallback result = []) ∧
    (i.mEnergyScanCallback = Option.none →
      i.InvokeEnergyScanCallback result = []) := by
  constructor
  · intro h
    simp [OtInstance.InvokeActiveScanCallback, h]
  · intro h
    simp [OtInstance.InvokeEnergyScanCallback, h]

/-- Witness for claim C10 at a freshly constructed instance (both callbacks
are `NULL`). -/
theorem invoke_scan_callbacks_null_noop_witness :
    OtInstance.construct.mActiveScanCallback = Option.none ∧
    OtInstance.construct.mEnergyScanCallback = Option.none ∧
    OtInstance.construct.InvokeActiveScanCallback 11 = [] ∧
    OtInstance.construct.InvokeEnergyScanCallback 12 = [] :=
  ⟨rfl, rfl,
   (invoke_scan_callbacks_null_noop OtInstance.construct 11).1 rfl,
   (invoke_scan_callbacks_null_noop OtInstance.construct 12).2 rfl⟩

/-- Claim C7: `Start` fails with the already-running error exactly when the
service is already started and `Stop` fails with the not-running error
exactly when it is not started; in the remaining cases both succeed
(misuse is reported, never silently swallowed). -/
theorem start_stop_lifecycle (s : MqttsnService) (port : Nat) :
    (s.running = true → mqttsnStart port s = (OtError.alreadyStarted, s)) ∧
    (s.running = false →
      mqttsnStart port s = (OtError.none, { running := true, port := port })) ∧
    (s.running = false → mqttsnStop s = (OtError.notStarted, s)) ∧
    (s.running = true →
      mqttsnStop s = (OtError.none, { s with running := false })) := by
  refine ⟨fun h => ?_, fun h => ?_, fun h => ?_, fun h => ?_⟩ <;>
    simp [mqttsnStart, mqttsnStop, h]

/-- Witness for claim C7: a running service rejects `Start` and accepts
`Stop`; a stopped one accepts `Start` and rejects `Stop`. -/
theorem start_stop_lifecycle_witness :
    mqttsnStart 1883 (MqttsnService.mk true 1883) =
      (OtError.alreadyStarted, MqttsnService.mk true 1883) ∧
    mqttsnStart 1883 (MqttsnService.mk false 0) =
      (OtError.none, MqttsnService.mk true 1883) ∧
    mqttsnStop (MqttsnService.mk false 0) =
      (OtError.notStarted, MqttsnService.mk false 0) ∧
    mqttsnStop (MqttsnService.mk true 1883) =
      (OtError.none, MqttsnService.mk false 1883) :=
  ⟨(start_stop_lifecycle (MqttsnService.mk true 1883) 1883).1 rfl,
   (start_stop_lifecycle (MqttsnService.mk false 0) 1883).2.1 rfl,
   (start_stop_lifecycle (MqttsnService.mk false 0) 1883).2.2.1 rfl,
   (start_stop_lifecycle (MqttsnService.mk true 1883) 1883).2.2.2 rfl⟩

/-- Claim C2: for every valid configuration, a Connect issued while
Disconnected is accepted, and the client then moves to Active if and only if
the gateway answers CONNACK Accepted; on any other code — and on timeout —
the state remains Disconnected, and in every outcome the registered
connected-handler observes that code (or the timeout code) exactly once. -/
theorem connect_active_iff_accepted (cfg : ClientConfig) (c : Client)
    (code : ReturnCode) (hv : validConfig cfg = true)
    (hd : c.state = ClientState.disconnected) :
    (clientConnect cfg c).1 = OtError.none ∧
    ((handleConnack code (clientConnect cfg c).2.1).1.state = ClientState.active ↔
      code = ReturnCode.accepted) ∧
    (code ≠ ReturnCode.accepted →
      (handleConnack code (clientConnect cfg c).2.1).1.state =
        ClientState.disconnected) ∧
    (handleConnack code (clientConnect cfg c).2.1).2 =
      [ConnEvent.connected code] ∧
    (connectTimeout (clientConnect cfg c).2.1).1.state =
      ClientState.disconnected ∧
    (connectTimeout (clientConnect cfg c).2.1).2 =
      [ConnEvent.connected ReturnCode.timeout] := by
  by_cases hc : code = ReturnCode.accepted <;>
    simp [clientConnect, handleConnack, connectTimeout, hv, hd, hc]

/-- Witness for claim C2 at a concrete valid configuration and the initial
disconnected client, with a rejected CONNACK code. -/
theorem connect_active_iff_accepted_witness :
    validConfig (ClientConfig.mk 1 1883 [100, 101, 118, 49] 60 true 5000 3) = true ∧
    (Client.mk ClientState.disconnected
        (ClientConfig.mk 0 0 [1] 0 false 0 0) false emptyTable 0).state =
      ClientState.disconnected ∧
    ((handleConnack ReturnCode.rejectedCongestion
        (clientConnect (ClientConfig.mk 1 1883 [100, 101, 118, 49] 60 true 5000 3)
          (Client.mk ClientState.disconnected
            (ClientConfig.mk 0 0 [1] 0 false 0 0) false emptyTable 0)).2.1).1.state =
      ClientState.disconnected) :=
  ⟨by decide, rfl,
   (connect_active_iff_accepted
      (ClientConfig.mk 1 1883 [100, 101, 118, 49] 60 true 5000 3)
      (Client.mk ClientState.disconnected
        (ClientConfig.mk 0 0 [1] 0 false 0 0) false emptyTable 0)
      ReturnCode.rejectedCongestion (by decide) rfl).2.2.1 (by decide)⟩

/-- Claim C3: in every client state other than Active, Subscribe and
Register fail immediately with `OT_ERROR_INVALID_STATE`, leaving the client
— in particular the message-id counter of the transaction table — unchanged
and sending nothing on the transport; Connect itself fails the same way from
every state other than Disconnected. -/
theorem invalid_state_rejections (c : Client) (name : List Nat) (q : Qos)
    (now : Nat) (cfg : ClientConfig) (hna : c.state ≠ ClientState.active) :
    clientSubscribe name q now c = (OtError.invalidState, c, []) ∧
    clientRegister name now c = (OtError.invalidState, c, []) ∧
    (c.state ≠ ClientState.disconnected →
      clientConnect cfg c = (OtError.invalidState, c, [])) := by
  refine ⟨?_, ?_, fun hnd => ?_⟩
  · simp [clientSubscribe, hna]
  · simp [clientRegister, hna]
  · simp [clientConnect, hnd]

/-- Witness for claim C3 at a concrete client in the Lost state. -/
theorem invalid_state_rejections_witness :
    (Client.mk ClientState.lost (ClientConfig.mk 0 0 [1] 0 false 0 0) false
        emptyTable 0).state ≠ ClientState.active ∧
    clientSubscribe [115, 47, 116] Qos.qos1 10
      (Client.mk ClientState.lost (ClientConfig.mk 0 0 [1] 0 false 0 0) false
        emptyTable 0) =
      (OtError.invalidState,
       Client.mk ClientState.lost (ClientConfig.mk 0 0 [1] 0 false 0 0) false
         emptyTable 0, []) ∧
    clientRegister [115, 47, 116] 10
      (Client.mk ClientState.lost (ClientConfig.mk 0 0 [1] 0 false 0 0) false
        emptyTable 0) =
      (OtError.invalidState,
       Client.mk ClientState.lost (ClientConfig.mk 0 0 [1] 0 false 0 0) false
         emptyTable 0, []) :=
  ⟨by decide,
   (invalid_state_rejections
      (Client.mk ClientState.lost (ClientConfig.mk 0 0 [1] 0 false 0 0) false
        emptyTable 0) [115, 47, 116] Qos.qos1 10
      (ClientConfig.mk 0 0 [1] 0 false 0 0) (by decide)).1,
   (invalid_state_rejections
      (Client.mk ClientState.lost (ClientConfig.mk 0 0 [1] 0 false 0 0) false
        emptyTable 0) [115, 47, 116] Qos.qos1 10
      (ClientConfig.mk 0 0 [1] 0 false 0 0) (by decide)).2.1⟩

/-- Claim C4: while the client is Active, Asleep or Awake, once no traffic
has been observed for `keepalive period × (retransmission count + 1)`
cumulatively, the keepalive step moves the session to Lost, clears the
transaction table, and force-resolves every transaction pending at that
moment with the connection-lost outcome — exactly once per transaction
(given the table's distinct-id invariant) and never with the timeout
outcome. -/
theorem keepalive_loss (now : Nat) (c : Client)
    (hs : c.state = ClientState.active ∨ c.state = ClientState.asleep ∨
      c.state = ClientState.awake)
    (ht : c.lastTraffic + keepaliveLimit c ≤ now)
    (hnd : (c.table.txs.map fun tx => tx.messageId).Nodup) :
    (checkKeepalive now c).1.state = ClientState.lost ∧
    (checkKeepalive now c).1.table.txs = [] ∧
    (checkKeepalive now c).2.2 =
      c.table.txs.map (fun tx => TickEvent.connectionLost tx.messageId) ∧
    (∀ tx ∈ c.table.txs,
      (checkKeepalive now c).2.2.count (TickEvent.connectionLost tx.messageId) = 1) ∧
    (∀ mid, TickEvent.timedOut mid ∉ (checkKeepalive now c).2.2) := by
  have hck : checkKeepalive now c =
      ({ c with state := ClientState.lost, table := { c.table with txs := [] } },
       [], c.table.txs.map (fun tx => TickEvent.connectionLost tx.messageId)) := by
    simp [checkKeepalive, hs, ht]
  refine ⟨by rw [hck], by rw [hck], by rw [hck], ?_, ?_⟩
  · intro tx htx
    rw [hck]
    have hmap : c.table.txs.map (fun tx => TickEvent.connectionLost tx.messageId) =
        (c.table.txs.map fun tx => tx.messageId).map TickEvent.connectionLost := by
      rw [List.map_map]
      rfl
    rw [hmap]
    rw [List.count_map_of_injective _ TickEvent.connectionLost
      (fun a b hab => by cases hab; rfl) tx.messageId]
    exact List.count_eq_one_of_mem hnd (List.mem_map_of_mem _ htx)
  · intro mid
    rw [hck]
    simp

/-- Witness for claim C4: an Active client with keepalive 10 and
retransmission count 1, silent since time 0, checked at time 20, with two
pending transactions. -/
theorem keepalive_loss_witness :
    (Client.mk ClientState.active (ClientConfig.mk 0 0 [1] 10 false 5000 1)
        false (TxTable.mk [Transaction.mk 1 TxKind.registerK 3 100 [10],
          Transaction.mk 2 TxKind.subscribeK 3 100 [11]] 3) 0).lastTraffic +
      keepaliveLimit (Client.mk ClientState.active
        (ClientConfig.mk 0 0 [1] 10 false 5000 1)
        false (TxTable.mk [Transaction.mk 1 TxKind.registerK 3 100 [10],
          Transaction.mk 2 TxKind.subscribeK 3 100 [11]] 3) 0) ≤ 20 ∧
    (checkKeepalive 20 (Client.mk ClientState.active
        (ClientConfig.mk 0 0 [1] 10 false 5000 1)
        false (TxTable.mk [Transaction.mk 1 TxKind.registerK 3 100 [10],
          Transaction.mk 2 TxKind.subscribeK 3 100 [11]] 3) 0)).1.state =
      ClientState.lost ∧
    (checkKeepalive 20 (Client.mk ClientState.active
        (ClientConfig.mk 0 0 [1] 10 false 5000 1)
        false (TxTable.mk [Transaction.mk 1 TxKind.registerK 3 100 [10],
          Transaction.mk 2 TxKind.subscribeK 3 100 [11]] 3) 0)).2.2.count
      (TickEvent.connectionLost 1) = 1 :=
  ⟨by decide,
   (keepalive_loss 20 (Client.mk ClientState.active
      (ClientConfig.mk 0 0 [1] 10 false 5000 1)
      false (TxTable.mk [Transaction.mk 1 TxKind.registerK 3 100 [10],
        Transaction.mk 2 TxKind.subscribeK 3 100 [11]] 3) 0)
      (Or.inl rfl) (by decide) (by decide)).1,
   (keepalive_loss 20 (Client.mk ClientState.active
      (ClientConfig.mk 0 0 [1] 10 false 5000 1)
      false (TxTable.mk [Transaction.mk 1 TxKind.registerK 3 100 [10],
        Transaction.mk 2 TxKind.subscribeK 3 100 [11]] 3) 0)
      (Or.inl rfl) (by decide) (by decide)).2.2.2.1
      (Transaction.mk 1 TxKind.registerK 3 100 [10]) (by decide)⟩

/-- A table whose entry list is empty is left untouched by `Tick`, which
performs no transport action. -/
theorem tickTable_empty (now T : Nat) (t : TxTable) (h : t.txs = []) :
    tickTable now T t = (t, []) := by
  cases t with
  | mk txs nid =>
      simp at h
      subst h
      simp [tickTable]

/-- A run of ticks over an empty table performs no action at all. -/
theorem runTicks_empty_table (T : Nat) (times : List Nat) (t : TxTable)
    (h : t.txs = []) : runTicks T times t = (t, []) := by
  induction times with
  | nil => rfl
  | cons now rest ih => simp [runTicks, tickTable_empty now T t h, ih]

/-- Claim C1: a pending transaction created with retry budget `n` (from
`config.mRetransmissionCount`) and first deadline `t0 + T`, to which no
response ever arrives, is retransmitted by the periodic `Tick` — the stored
payload, unchanged — exactly `n` times (so `n + 1` total transmissions
counting the initial send), after which its callback is invoked with the
timeout code exactly once, never earlier in the event sequence; the
transaction is then removed and arbitrarily many further ticks (`k` of
them) produce no further transport action. -/
theorem tick_retransmits_then_times_out (n k t0 T mid nid : Nat)
    (kind : TxKind) (payload : List Nat) :
    runTicks T (tickSchedule t0 T (n + 1 + k))
      (TxTable.mk [Transaction.mk mid kind n (t0 + T) payload] nid) =
    (TxTable.mk [] nid,
     List.replicate n (TickEvent.retransmit mid payload) ++
       [TickEvent.timedOut mid]) := by
  induction n generalizing t0 with
  | zero =>
      have h1 : 0 + 1 + k = k + 1 := by omega
      rw [h1, tickSchedule]
      have htick : tickTable (t0 + T) T
          (TxTable.mk [Transaction.mk mid kind 0 (t0 + T) payload] nid) =
          (TxTable.mk [] nid, [TickEvent.timedOut mid]) := by
        simp [tickTable, tickTx]
      simp [runTicks, htick, runTicks_empty_table T _ (TxTable.mk [] nid) rfl]
  | succ m ih =>
      have h1 : m + 1 + 1 + k = (m + 1 + k) + 1 := by omega
      rw [h1, tickSchedule]
      have htick : tickTable (t0 + T) T
          (TxTable.mk [Transaction.mk mid kind (m + 1) (t0 + T) payload] nid) =
          (TxTable.mk [Transaction.mk mid kind m (t0 + T + T) payload] nid,
           [TickEvent.retransmit mid payload]) := by
        simp [tickTable, tickTx]
      simp only [runTicks, htick, ih (t0 + T)]
      simp [List.replicate_succ]

/-- The per-transaction tick step never changes a surviving transaction's
message id. -/
theorem tickTx_messageId (now rtTimeout : Nat) (tx tx' : Transaction)
    (h : (tickTx now rtTimeout tx).1 = Option.some tx') :
    tx'.messageId = tx.messageId := by
  unfold tickTx at h
  split at h
  · split at h
    · simp at h
      subst h
      rfl
    · simp at h
  · simp at h
    subst h
    rfl

/-- Mapping after a `filterMap` that preserves the mapped value yields a
sublist of the original mapping. -/
theorem map_filterMap_sublist {α β γ : Type} (f : α → Option β) (g : α → γ)
    (g2 : β → γ) (h : ∀ a b, f a = Option.some b → g2 b = g a) (l : List α) :
    ((l.filterMap f).map g2).Sublist (l.map g) := by
  induction l with
  | nil => simp
  | cons a l ih =>
      cases hfa : f a with
      | none =>
          rw [List.map_cons, List.filterMap_cons, hfa]
          exact ih.cons (g a)
      | some b =>
          rw [List.map_cons, List.filterMap_cons, hfa, List.map_cons, h a b hfa]
          exact ih.cons₂ (g a)

/-- The empty table satisfies the table invariant. -/
theorem tableInv_empty : TableInv emptyTable := by
  refine ⟨by simp [emptyTable], by simp [emptyTable, tableCapacity], ?_, by simp [emptyTable]⟩
  intro tx htx
  simp [emptyTable] at htx

/-- `Insert` preserves the table invariant. -/
theorem tableInv_insert (kind : TxKind) (mkPayload : Nat → List Nat)
    (now rT rC : Nat) (t : TxTable) (h : TableInv t) :
    TableInv (insertTx kind mkPayload now rT rC t).2 := by
  obtain ⟨hnd, hlen, hids, hnext⟩ := h
  by_cases hcap : tableCapacity ≤ t.txs.length
  · simpa [insertTx, hcap] using ⟨hnd, hlen, hids, hnext⟩
  · by_cases hcol : t.txs.any (fun tx => tx.messageId = allocId t) = true
    · simpa [insertTx, hcap, hcol] using ⟨hnd, hlen, hids, hnext⟩
    · have hmid : allocId t ≠ 0 ∧ allocId t < 65536 := by
        unfold allocId
        split
        · omega
        · exact ⟨by assumption, hnext⟩
      simp only [insertTx, if_neg hcap, if_neg hcol]
      refine ⟨?_, ?_, ?_, ?_⟩
      · simp only [List.map_append, List.map_cons, List.map_nil]
        rw [List.nodup_append]
        refine ⟨hnd, List.nodup_singleton _, ?_⟩
        intro x hx hx1
        simp at hx1
        simp [List.mem_map] at hx
        obtain ⟨tx, htx, hteq⟩ := hx
        rw [List.any_eq_true] at hcol
        exact hcol ⟨tx, htx, by simp [hteq, hx1]⟩
      · simp only [List.length_append, List.length_cons, List.length_nil]
        omega
      · intro tx htx
        rcases List.mem_append.mp htx with hold | hnew
        · exact hids tx hold
        · simp at hnew
          subst hnew
          exact hmid
      · exact Nat.mod_lt _ (by omega)

/-- `Resolve` preserves the table invariant. -/
theorem tableInv_resolve (mid : Nat) (t : TxTable) (h : TableInv t) :
    TableInv (resolveTx mid t).2 := by
  obtain ⟨hnd, hlen, hids, hnext⟩ := h
  have hsub : (t.txs.filter (fun tx => tx.messageId != mid)).Sublist t.txs :=
    List.filter_sublist t.txs
  refine ⟨hnd.sublist (hsub.map _), ?_, ?_, hnext⟩
  · exact le_trans (List.length_filter_le _ t.txs) hlen
  · intro tx htx
    exact hids tx (List.mem_of_mem_filter htx)

/-- `Tick` preserves the table invariant. -/
theorem tableInv_tick (now rT : Nat) (t : TxTable) (h : TableInv t) :
    TableInv (tickTable now rT t).1 := by
  obtain ⟨hnd, hlen, hids, hnext⟩ := h
  have hsub : ((t.txs.filterMap (fun tx => (tickTx now rT tx).1)).map
      fun tx => tx.messageId).Sublist (t.txs.map fun tx => tx.messageId) :=
    map_filterMap_sublist _ _ _ (fun a b hab => tickTx_messageId now rT a b hab) t.txs
  refine ⟨hnd.sublist hsub, ?_, ?_, hnext⟩
  · exact le_trans (List.length_filterMap_le _ t.txs) hlen
  · intro tx htx
    rw [tickTable] at htx
    simp only [List.mem_filterMap] at htx
    obtain ⟨a, ha, hfa⟩ := htx
    have := tickTx_messageId now rT a tx hfa
    rw [this]
    exact hids a ha

/-- Every reachable table satisfies the invariant. -/
theorem tableInv_reachable (t : TxTable) (h : ReachableTable t) : TableInv t := by
  induction h with
  | empty => exact tableInv_empty
  | insert kind mkPayload now rT rC t _ ih => exact tableInv_insert kind mkPayload now rT rC t ih
  | resolve mid t _ ih => exact tableInv_resolve mid t ih
  | tick now rT t _ ih => exact tableInv_tick now rT t ih

/-- Claim C5: at every reachable transaction-table state, the pending
message ids are pairwise distinct and drawn from the nonzero 16-bit range,
the number of entries never exceeds the capacity, and an `Insert` that would
exceed the capacity — or whose freshly allocated id collides with a
still-pending id — returns the resource-exhaustion result with the table
unchanged, evicting nothing. -/
theorem table_invariants (t : TxTable) (hr : ReachableTable t) :
    ((t.txs.map fun tx => tx.messageId).Nodup ∧
     t.txs.length ≤ tableCapacity ∧
     (∀ tx ∈ t.txs, tx.messageId ≠ 0 ∧ tx.messageId < 65536)) ∧
    (∀ (kind : TxKind) (mkPayload : Nat → List Nat) (now rtTimeout rtCount : Nat),
      (tableCapacity ≤ t.txs.length ∨
        t.txs.any (fun tx => tx.messageId = allocId t) = true) →
      insertTx kind mkPayload now rtTimeout rtCount t = (Option.none, t)) := by
  obtain ⟨hnd, hlen, hids, hnext⟩ := tableInv_reachable t hr
  refine ⟨⟨hnd, hlen, hids⟩, ?_⟩
  intro kind mkPayload now rtTimeout rtCount hbad
  by_cases hcap : tableCapacity ≤ t.txs.length
  · simp [insertTx, hcap]
  · have hcol : t.txs.any (fun tx => tx.messageId = allocId t) = true := by
      rcases hbad with hb | hb
      · exact absurd hb hcap
      · exact hb
    simp [insertTx, hcap, hcol]

/-- Witness for claim C5 at the table reached by one successful insertion
into the empty table. -/
theorem table_invariants_witness :
    (((insertTx TxKind.registerK (fun _ => [1]) 0 5 3 emptyTable).2.txs.map
        fun tx => tx.messageId).Nodup ∧
      (insertTx TxKind.registerK (fun _ => [1]) 0 5 3 emptyTable).2.txs.length ≤
        tableCapacity) :=
  ⟨((table_invariants (insertTx TxKind.registerK (fun _ => [1]) 0 5 3 emptyTable).2
      (ReachableTable.insert _ _ _ _ _ _ ReachableTable.empty)).1).1,
   ((table_invariants (insertTx TxKind.registerK (fun _ => [1]) 0 5 3 emptyTable).2
      (ReachableTable.insert _ _ _ _ _ _ ReachableTable.empty)).1).2.1⟩

/-- Framing round trip: the frame decoder accepts exactly the length
prefix the frame encoder produced and returns the content. -/
theorem decodeFrame_encodeFrame (c : List Nat) (h : 0 < c.length) :
    decodeFrame (encodeFrame c) = Option.some c := by
  unfold encodeFrame
  by_cases hs : c.length + 1 < 256
  · rw [if_pos hs]
    have h1 : c.length + 1 ≠ 1 := by omega
    simp [decodeFrame, h1]
  · rw [if_neg hs]
    have h2 : (c.length + 3) / 256 * 256 + (c.length + 3) % 256 = c.length + 3 := by
      omega
    simp [decodeFrame, byte16, h2]

/-- The will flag survives the CONNECT flag byte. -/
theorem flagBit_connectFlags_3 (w cl : Bool) : flagBit (connectFlags w cl) 3 = w := by
  cases w <;> cases cl <;> decide

/-- The clean-session flag survives the CONNECT flag byte. -/
theorem flagBit_connectFlags_2 (w cl : Bool) : flagBit (connectFlags w cl) 2 = cl := by
  cases w <;> cases cl <;> decide

/-- Big-endian 16-bit round trip. -/
theorem div_mod_256 (n : Nat) : n / 256 * 256 + n % 256 = n := by
  omega

/-- The QoS bits survive a combined flag byte. -/
theorem qosOfBits_flagsByte (q : Qos) (idt : TopicIdType) :
    qosOfBits (flagsByte q idt / 32) = q := by
  cases q <;> cases idt <;> decide

/-- The topic-id-type bits survive a combined flag byte. -/
theorem idtOfBits_flagsByte (q : Qos) (idt : TopicIdType) :
    idtOfBits (flagsByte q idt % 4) = Option.some idt := by
  cases q <;> cases idt <;> decide

/-- The QoS bits survive a QoS-only flag byte. -/
theorem qosOfBits_toBits (q : Qos) : qosOfBits (q.toBits * 32 / 32) = q := by
  cases q <;> decide

/-- Decoding the raw QoS bits yields the QoS level. -/
theorem qosOfBits_toBits_direct (q : Qos) : qosOfBits q.toBits = q := by
  cases q <;> decide

/-- A gateway return code survives its wire byte. -/
theorem rcOfByte_toByte (c : ReturnCode) (h : wireCode c = true) :
    rcOfByte c.toByte = Option.some c := by
  cases c <;> first | decide | (exfalso; simp [wireCode] at h)

/-- Claim C6: decoding the encoding of any representable message of any
supported message type yields the message again:
`Decode(Encode(m)) == m`. -/
theorem decode_encode (m : Message) (h : representable m = true) :
    decode (encode m) = Option.some m := by
  have hlen : 0 < (encodeContent m).length := by
    cases m
    case subscribe q mid target => cases target <;> simp [encodeContent, byte16]
    case disconnect d => cases d <;> simp [encodeContent, byte16]
    all_goals simp [encodeContent, byte16]
  simp only [decode, encode]
  rw [decodeFrame_encodeFrame _ hlen, Option.some_bind]
  cases m with
  | connect will clean ka cid =>
      simp [encodeContent, decodeContent, decodeConnect, byte16,
        flagBit_connectFlags_3, flagBit_connectFlags_2, div_mod_256]
  | connack code =>
      have hc : code ≠ ReturnCode.timeout := by
        intro hq
        subst hq
        simp [representable, wireCode] at h
      have hc2 : wireCode code = true := by simp [wireCode, hc]
      simp [encodeContent, decodeContent, decodeConnack, rcOfByte_toByte code hc2]
  | willtopicreq => simp [encodeContent, decodeContent]
  | willtopic q name =>
      simp [encodeContent, decodeContent, decodeWilltopic, qosOfBits_toBits,
        qosOfBits_toBits_direct]
  | willmsgreq => simp [encodeContent, decodeContent]
  | willmsg data => simp [encodeContent, decodeContent]
  | register tid mid name =>
      simp [encodeContent, decodeContent, decodeRegister, byte16, div_mod_256]
  | regack tid mid code =>
      have hc : code ≠ ReturnCode.timeout := by
        intro hq
        subst hq
        simp [representable, wireCode] at h
      have hc2 : wireCode code = true := by simp [wireCode, hc]
      simp [encodeContent, decodeContent, decodeRegack, byte16, div_mod_256,
        rcOfByte_toByte code hc2]
  | publish q idt tid mid data =>
      simp [encodeContent, decodeContent, decodePublish, byte16, div_mod_256,
        qosOfBits_flagsByte, idtOfBits_flagsByte]
  | puback tid mid code =>
      have hc : code ≠ ReturnCode.timeout := by
        intro hq
        subst hq
        simp [representable, wireCode] at h
      have hc2 : wireCode code = true := by simp [wireCode, hc]
      simp [encodeContent, decodeContent, decodePuback, byte16, div_mod_256,
        rcOfByte_toByte code hc2]
  | subscribe q mid target =>
      cases target with
      | name n =>
          simp [encodeContent, decodeContent, decodeSubscribe, byte16,
            div_mod_256, qosOfBits_flagsByte, idtOfBits_flagsByte]
      | shortName a b =>
          simp [encodeContent, decodeContent, decodeSubscribe, byte16,
            div_mod_256, qosOfBits_flagsByte, idtOfBits_flagsByte]
      | predefinedId tid =>
          simp [encodeContent, decodeContent, decodeSubscribe, byte16,
            div_mod_256, qosOfBits_flagsByte, idtOfBits_flagsByte]
  | suback q tid mid code =>
      have hc : code ≠ ReturnCode.timeout := by
        intro hq
        subst hq
        simp [representable, wireCode] at h
      have hc2 : wireCode code = true := by simp [wireCode, hc]
      simp [encodeContent, decodeContent, decodeSuback, byte16, div_mod_256,
        qosOfBits_toBits, qosOfBits_toBits_direct, rcOfByte_toByte code hc2]
  | pingreq => simp [encodeContent, decodeContent]
  | pingresp => simp [encodeContent, decodeContent]
  | disconnect d =>
      cases d with
      | none => simp [encodeContent, decodeContent, decodeDisconnect]
      | some dur =>
          simp [encodeContent, decodeContent, decodeDisconnect, byte16, div_mod_256]

/-- Witness for claim C6 at a concrete representable REGISTER message. -/
theorem decode_encode_witness :
    representable (Message.register 5 7 [115, 47, 116]) = true ∧
    decode (encode (Message.register 5 7 [115, 47, 116])) =
      Option.some (Message.register 5 7 [115, 47, 116]) :=
  ⟨by decide, decode_encode (Message.register 5 7 [115, 47, 116]) (by decide)⟩
